import Mathlib

/-!
Shallow embedding of the route-progress and ETA engine of the FLAME shuttle
tracking backend (src/Backend/app): the geometry kernel
(app/core/route_config.py), the OSRM routing gateway (app/services/osrm.py)
and the ETA service (app/services/eta.py).

Python floats are modelled as real numbers; `int(x)` is truncation toward
zero (`pyInt`).  The HTTP exchange performed by one call is modelled as an
explicit outcome value (timeout / response with status and parsed JSON body /
other exception), and each service function takes the caches it reads and
returns the caches it leaves behind, together with a flag recording whether a
network request to the engine was issued on that call.  URL strings built
from coordinates are abstracted to `Option Unit` (present/absent), since
their text plays no role in the behaviour under study.
-/

open scoped Classical

/-- math.radians: degrees to radians. -/
noncomputable def radians (x : ℝ) : ℝ := x * (Real.pi / 180)

/-- math.atan2 on real arguments (quadrant-correcting arctangent). -/
noncomputable def atan2 (y x : ℝ) : ℝ :=
  if 0 < x then Real.arctan (y / x)
  else if x < 0 then
    (if 0 ≤ y then Real.arctan (y / x) + Real.pi else Real.arctan (y / x) - Real.pi)
  else if 0 < y then Real.pi / 2
  else if y < 0 then -(Real.pi / 2)
  else 0

/-- Python int() on a float: truncation toward zero. -/
noncomputable def pyInt (x : ℝ) : ℤ := if 0 ≤ x then ⌊x⌋ else ⌈x⌉

/-- haversine_distance (app/core/route_config.py lines 187-213): great-circle
distance in meters between two lat/lon points, Earth radius 6371000 m,
computed with the atan2 form of the haversine formula. -/
noncomputable def haversine_distance (lat1 lon1 lat2 lon2 : ℝ) : ℝ :=
  let R : ℝ := 6371000
  let lat1_rad := radians lat1
  let lat2_rad := radians lat2
  let delta_lat := radians (lat2 - lat1)
  let delta_lon := radians (lon2 - lon1)
  let a := Real.sin (delta_lat / 2) ^ 2 +
    Real.cos lat1_rad * Real.cos lat2_rad * Real.sin (delta_lon / 2) ^ 2
  let c := 2 * atan2 (Real.sqrt a) (Real.sqrt (1 - a))
  R * c

/-- ETAService._point_to_segment_distance (app/services/eta.py lines 362-401):
distance from a point to a segment in a local planar frame scaled by the
cosine of the average latitude; returns (clamped distance, unclamped
projection ratio t). -/
noncomputable def pointToSegmentDistance (point segStart segEnd : ℝ × ℝ) : ℝ × ℝ :=
  let lat := point.1
  let lon := point.2
  let slat := segStart.1
  let slon := segStart.2
  let elat := segEnd.1
  let elon := segEnd.2
  let R : ℝ := 6371000
  let rad : ℝ := Real.pi / 180
  let avg_lat := (lat + slat + elat) / 3 * rad
  let cos_lat := Real.cos avg_lat
  let px := lon * rad * cos_lat * R
  let py := lat * rad * R
  let ax := slon * rad * cos_lat * R
  let ay := slat * rad * R
  let bx := elon * rad * cos_lat * R
  let bY := elat * rad * R
  let abx := bx - ax
  let aby := bY - ay
  let apx := px - ax
  let apy := py - ay
  let ab_sq := abx ^ 2 + aby ^ 2
  if ab_sq = 0 then (Real.sqrt (apx ^ 2 + apy ^ 2), 0)
  else
    let t := (apx * abx + apy * aby) / ab_sq
    let t_clamped := max 0 (min 1 t)
    let cx := ax + t_clamped * abx
    let cy := ay + t_clamped * aby
    (Real.sqrt ((px - cx) ^ 2 + (py - cy) ^ 2), t)

/-- Station (app/core/route_config.py): id, display name and coordinates. -/
structure Station where
  id : String
  name : String
  lat : ℝ
  lon : ℝ

/- ================= OSRM gateway (app/services/osrm.py) ================= -/

/-- One entry of the `routes` array of an OSRM route response; `none` fields
model keys missing from the JSON object (lookup raises KeyError). -/
structure OsrmRouteEntry where
  duration : Option ℝ
  distance : Option ℝ

/-- Parsed JSON body of an OSRM route response; `none` models an absent key
(dict.get returns None). -/
structure RoutePayload where
  code : Option String
  message : Option String
  routes : Option (List OsrmRouteEntry)

/-- Outcome of the single HTTP exchange attempted by one get_route call:
timeout, a response with an HTTP status and parsed body, or any other
exception (connection failure, JSON decode error, ...). -/
inductive RouteOutcome where
  | timeout
  | response (status : ℕ) (payload : RoutePayload)
  | failure

/-- Parsed JSON body of an OSRM table response. -/
structure TablePayload where
  code : Option String
  message : Option String
  durations : Option (List (List (Option ℝ)))
  distances : Option (List (List (Option ℝ)))

/-- Outcome of the single HTTP exchange attempted by one get_table call. -/
inductive TableOutcome where
  | timeout
  | response (status : ℕ) (payload : TablePayload)
  | failure

/-- Result dict of get_route / one entry of get_table / _fallback_estimate.
`source = none` models a dict with no "source" key at all (the success path
of get_route and get_table builds `{duration_seconds, distance_meters,
osrm_request}` and never sets "source"); the fallback estimator sets
`source = some "estimate_fallback"`.  The request-URL string is abstracted to
presence/absence. -/
structure RouteResult where
  duration_seconds : ℤ
  distance_meters : ℤ
  source : Option String
  osrm_req : Option Unit

/-- fastapi.HTTPException as raised by get_table. -/
structure HttpError where
  status : ℕ
  detail : String

/-- OSRMService.avg_speeds lookup with "driving" default:
`self.avg_speeds.get(profile, self.avg_speeds["driving"])`. -/
noncomputable def avgSpeed (profile : String) : ℝ :=
  if profile = "driving" then 13.89
  else if profile = "walking" then 1.39
  else 13.89

/-- OSRMService._fallback_estimate (osrm.py lines 251-282): haversine distance
and an average-speed duration, tagged `source = "estimate_fallback"`, no
request URL. -/
noncomputable def fallbackEstimate (origin destination : ℝ × ℝ) (profile : String) :
    RouteResult :=
  let distance := haversine_distance origin.1 origin.2 destination.1 destination.2
  let duration := distance / avgSpeed profile
  ⟨pyInt duration, pyInt distance, some "estimate_fallback", none⟩

/-- The OSRMService response cache (`self._cache`), keyed by the coordinate
list and profile of the request; the "route:" and "table:" key spaces of the
Python string keys are kept apart as two maps.  Each entry stores the value
and the timestamp it was written at. -/
structure OsrmCache where
  routeC : List (ℝ × ℝ) → String → Option (RouteResult × ℝ)
  tableC : List (ℝ × ℝ) → String → Option (List RouteResult × ℝ)

noncomputable def emptyOsrmCache : OsrmCache := ⟨fun _ _ => none, fun _ _ => none⟩

/-- OSRMService._get_from_cache on a route key: a fresh entry (< 60 s old) is
returned; an expired entry is deleted. -/
noncomputable def routeCacheLookup (now : ℝ) (c : OsrmCache)
    (coords : List (ℝ × ℝ)) (profile : String) : Option RouteResult × OsrmCache :=
  match c.routeC coords profile with
  | none => (none, c)
  | some (v, t) =>
    if now - t < 60 then (some v, c)
    else (none, ⟨fun k p => if k = coords ∧ p = profile then none else c.routeC k p,
                 c.tableC⟩)

/-- OSRMService._get_from_cache on a table key. -/
noncomputable def tableCacheLookup (now : ℝ) (c : OsrmCache)
    (coords : List (ℝ × ℝ)) (profile : String) :
    Option (List RouteResult) × OsrmCache :=
  match c.tableC coords profile with
  | none => (none, c)
  | some (v, t) =>
    if now - t < 60 then (some v, c)
    else (none, ⟨c.routeC,
                 fun k p => if k = coords ∧ p = profile then none else c.tableC k p⟩)

/-- OSRMService._set_cache on a route key. -/
noncomputable def setRouteCache (c : OsrmCache) (coords : List (ℝ × ℝ))
    (profile : String) (v : RouteResult) (now : ℝ) : OsrmCache :=
  ⟨fun k p => if k = coords ∧ p = profile then some (v, now) else c.routeC k p,
   c.tableC⟩

/-- OSRMService._set_cache on a table key. -/
noncomputable def setTableCache (c : OsrmCache) (coords : List (ℝ × ℝ))
    (profile : String) (v : List RouteResult) (now : ℝ) : OsrmCache :=
  ⟨c.routeC,
   fun k p => if k = coords ∧ p = profile then some (v, now) else c.tableC k p⟩

/-- Value returned by one get_route call: the result dict, the cache state
left behind, and whether an HTTP request to the engine was issued. -/
structure RouteCall where
  result : RouteResult
  cache : OsrmCache
  queried : Bool

/-- The try-block of OSRMService.get_route (osrm.py lines 98-149), entered
after a cache miss: a 4xx/5xx status (raise_for_status), a non-"Ok" code, a
missing or empty routes array, a route entry missing its duration or distance
key (KeyError caught by the broad handler), a timeout, and any other
exception all return the closed-form fallback estimate without touching the
cache; only a fully well-formed success is cached. -/
noncomputable def get_route_engine (eng : RouteOutcome) (now : ℝ)
    (origin destination : ℝ × ℝ) (profile : String) (c1 : OsrmCache) :
    RouteCall :=
  match eng with
  | .timeout => ⟨fallbackEstimate origin destination profile, c1, true⟩
  | .failure => ⟨fallbackEstimate origin destination profile, c1, true⟩
  | .response status payload =>
    if 400 ≤ status then ⟨fallbackEstimate origin destination profile, c1, true⟩
    else if payload.code ≠ some "Ok" then
      ⟨fallbackEstimate origin destination profile, c1, true⟩
    else
      match payload.routes with
      | none => ⟨fallbackEstimate origin destination profile, c1, true⟩
      | some [] => ⟨fallbackEstimate origin destination profile, c1, true⟩
      | some (r :: _) =>
        match r.duration, r.distance with
        | some du, some di =>
          let res : RouteResult := ⟨pyInt du, pyInt di, none, some ()⟩
          ⟨res, setRouteCache c1 [origin, destination] profile res now, true⟩
        | some _, none => ⟨fallbackEstimate origin destination profile, c1, true⟩
        | none, _ => ⟨fallbackEstimate origin destination profile, c1, true⟩

/-- OSRMService.get_route (osrm.py lines 68-149): a fresh cached result is
returned without a request; otherwise the exchange of `get_route_engine`. -/
noncomputable def get_route (eng : RouteOutcome) (now : ℝ)
    (origin destination : ℝ × ℝ) (profile : String) (cache : OsrmCache) :
    RouteCall :=
  match routeCacheLookup now cache [origin, destination] profile with
  | (some v, c1) => ⟨v, c1, false⟩
  | (none, c1) => get_route_engine eng now origin destination profile c1

/-- Value returned by one get_table call: either the result list or a raised
HTTPException, the cache left behind, and whether the engine was consulted. -/
structure TableCall where
  result : Except HttpError (List RouteResult)
  cache : OsrmCache
  queried : Bool

/-- Builds the per-destination entries of a table result: a null duration or
distance cell falls back to the closed-form estimate for that destination,
other cells become plain routed entries (again with no "source" key). -/
noncomputable def tableEntries (origin : ℝ × ℝ) (profile : String) :
    List ((Option ℝ × Option ℝ) × (ℝ × ℝ)) → List RouteResult
  | [] => []
  | ((some du, some di), _) :: rest =>
    ⟨pyInt du, pyInt di, none, some ()⟩ :: tableEntries origin profile rest
  | ((some _, none), dest) :: rest =>
    fallbackEstimate origin dest profile :: tableEntries origin profile rest
  | ((none, _), dest) :: rest =>
    fallbackEstimate origin dest profile :: tableEntries origin profile rest

/-- The try-block of OSRMService.get_table (osrm.py lines 193-249), entered
after a cache miss.  Timeout, 5xx statuses and unexpected exceptions fall
back to per-destination estimates; but a non-"Ok" engine code, an incomplete
duration/distance matrix, and a 4xx status each raise HTTPException(503).
An absent or empty durations/distances array makes the `[0]` row access raise
IndexError, which the broad handler turns into the all-fallback list. -/
noncomputable def get_table_engine (eng : TableOutcome) (now : ℝ) (origin : ℝ × ℝ)
    (destinations : List (ℝ × ℝ)) (profile : String) (c1 : OsrmCache) :
    TableCall :=
  let allFallback : List RouteResult :=
    destinations.map (fun d => fallbackEstimate origin d profile)
  match eng with
  | .timeout => ⟨.ok allFallback, c1, true⟩
  | .failure => ⟨.ok allFallback, c1, true⟩
  | .response status payload =>
    if 400 ≤ status then
      if 500 ≤ status then ⟨.ok allFallback, c1, true⟩
      else ⟨.error ⟨503, "OSRM service error"⟩, c1, true⟩
    else if payload.code ≠ some "Ok" then
      ⟨.error ⟨503, "OSRM error: " ++ payload.message.getD "No route found"⟩,
       c1, true⟩
    else
      match payload.durations.getD [[]] with
      | [] => ⟨.ok allFallback, c1, true⟩
      | drow :: _ =>
        match payload.distances.getD [[]] with
        | [] => ⟨.ok allFallback, c1, true⟩
        | srow :: _ =>
          if drow.length ≠ destinations.length ∨
             srow.length ≠ destinations.length then
            ⟨.error ⟨503, "OSRM returned incomplete matrix"⟩, c1, true⟩
          else
            let results := tableEntries origin profile
              ((drow.zip srow).zip destinations)
            ⟨.ok results, setTableCache c1 (origin :: destinations) profile results now,
             true⟩

/-- OSRMService.get_table (osrm.py lines 151-249): a fresh non-empty cached
list is returned without a request (an empty cached list is falsy and is
recomputed); otherwise the exchange of `get_table_engine`. -/
noncomputable def get_table (eng : TableOutcome) (now : ℝ) (origin : ℝ × ℝ)
    (destinations : List (ℝ × ℝ)) (profile : String) (cache : OsrmCache) :
    TableCall :=
  match tableCacheLookup now cache (origin :: destinations) profile with
  | (some rs, c1) =>
    if rs.isEmpty then get_table_engine eng now origin destinations profile c1
    else ⟨.ok rs, c1, false⟩
  | (none, c1) => get_table_engine eng now origin destinations profile c1

/- ================= ETA service (app/services/eta.py) ================= -/

/-- StopWithETA (app/schemas/eta.py): a stop together with its ETA data. -/
structure StopWithETA where
  stop_id : String
  name : String
  lat : ℝ
  lon : ℝ
  eta_seconds : ℤ
  distance_meters : ℤ
  status : String
  source : String
  osrm_req : Option Unit

/-- Stop (app/schemas/eta.py): bare stop information. -/
structure StopInfo where
  stop_id : String
  name : String
  lat : ℝ
  lon : ℝ

/-- SegmentProgress (app/schemas/eta.py): progress along the current route
segment. -/
structure SegmentProgress where
  from_stop : StopInfo
  to_stop : StopInfo
  total_distance_meters : ℝ
  remaining_distance_meters : ℝ
  progress_ratio : ℝ

/-- The dict returned by ETAService.get_upcoming_stops_eta; the error
responses built by _build_error_response carry an error message and no
current_segment key (modelled as `none`). -/
structure ETAResult where
  route_id : String
  direction : String
  current_segment : Option SegmentProgress
  upcoming_stops : List StopWithETA
  off_route : Bool
  stale : Bool
  error : Option String

/-- The scan of ETAService._find_current_segment: best index starts at 0 with
an infinite best distance (modelled as `none`), and is replaced whenever a
segment's distance is strictly below the best so far, so the first index
attaining the minimum wins. -/
noncomputable def scanArgmin : List ℝ → ℕ → ℕ × Option ℝ → ℕ × Option ℝ
  | [], _, acc => acc
  | d :: rest, i, acc =>
    scanArgmin rest (i + 1)
      (match acc.2 with
       | none => (i, some d)
       | some m => if d < m then (i, some d) else acc)

/-- First index of the minimum of a list of distances (0 for an empty list),
exactly the loop of _find_current_segment. -/
noncomputable def argminFirst (ds : List ℝ) : ℕ := (scanArgmin ds 0 (0, none)).1

/-- The list of clamped point-to-segment distances from the vehicle to each
consecutive stop pair. -/
noncomputable def segmentDistances (loc : ℝ × ℝ) (stops : List Station) : List ℝ :=
  (stops.zip stops.tail).map
    (fun p => (pointToSegmentDistance loc (p.1.lat, p.1.lon) (p.2.lat, p.2.lon)).1)

/-- ETAService._find_current_segment (eta.py lines 236-264): full scan over
all consecutive stop pairs, returning the first index with minimal distance
(0 when there is at most one stop). -/
noncomputable def find_current_segment (loc : ℝ × ℝ) (stops : List Station) : ℕ :=
  argminFirst (segmentDistances loc stops)

/-- ETAService._filter_upcoming_stops (eta.py lines 211-234): all stops after
the current segment's start; a single-stop route returns that stop. -/
noncomputable def filter_upcoming_stops (loc : ℝ × ℝ) (route_stops : List Station) :
    List Station :=
  if route_stops.isEmpty then []
  else if route_stops.length = 1 then route_stops
  else
    let next := find_current_segment loc route_stops + 1
    if route_stops.length ≤ next then [] else route_stops.drop next

/-- ETAService._is_off_route (eta.py lines 266-303): true when there is no
upcoming stop; otherwise compares the distance to the active segment (or, at
the very start of the route, to the first stop) with the 1000 m threshold. -/
noncomputable def is_off_route (loc : ℝ × ℝ) (all_stops upcoming : List Station) :
    Bool :=
  if upcoming.isEmpty ∨ all_stops.isEmpty then true
  else
    match upcoming.head? with
    | none => true
    | some next =>
      match all_stops.findIdx? (fun s => s.id = next.id) with
      | none => true
      | some next_idx =>
        match all_stops[next_idx - 1]? with
        | none => true
        | some prev =>
          if prev.id = next.id then
            decide (1000 < haversine_distance loc.1 loc.2 next.lat next.lon)
          else
            decide (1000 <
              (pointToSegmentDistance loc (prev.lat, prev.lon)
                (next.lat, next.lon)).1)

/-- Python exceptions relevant to the ETA pipeline. -/
inductive PyError where
  | attributeError

/-- One leg of a multi-waypoint route response. -/
structure Leg where
  duration : ℝ
  distance : ℝ

/-- The attribute access `osrm_service.get_route_with_waypoints` performed by
ETAService._calculate_etas: OSRMService (app/services/osrm.py) defines only
get_route, get_table, _fallback_estimate and its cache helpers — there is no
method named get_route_with_waypoints anywhere in the codebase — so this
access raises AttributeError before any request is made. -/
def get_route_with_waypoints : Except PyError (List Leg) := .error .attributeError

/-- The accumulation loop of ETAService._calculate_etas (eta.py lines
329-360): walks the legs, stopping once the stop list is exhausted, keeping
running float sums of duration and distance; each produced entry carries the
truncated running sums, status "arriving" for the first leg within 100 m and
"upcoming" otherwise, and source "osrm". -/
noncomputable def accumulateEtas (stops : List Station) (req : Option Unit) :
    List Leg → ℕ → ℝ → ℝ → List StopWithETA
  | [], _, _, _ => []
  | leg :: rest, i, accD, accM =>
    if stops.length ≤ i then []
    else
      match stops[i]? with
      | none => []
      | some stop =>
        let accD' := accD + leg.duration
        let accM' := accM + leg.distance
        let status := if i = 0 ∧ accM' < 100 then "arriving" else "upcoming"
        ⟨stop.id, stop.name, stop.lat, stop.lon, pyInt accD', pyInt accM',
         status, "osrm", req⟩ :: accumulateEtas stops req rest (i + 1) accD' accM'

/-- ETAService._calculate_etas (eta.py lines 305-360): builds the waypoint
coordinate list and calls osrm_service.get_route_with_waypoints — which
raises AttributeError (see `get_route_with_waypoints`) — so the accumulation
below it is unreachable; the error propagates to the caller's broad handler. -/
noncomputable def calculate_etas (origin : ℝ × ℝ) (stops : List Station)
    (mode : String) : Except PyError (List StopWithETA) :=
  if stops.isEmpty then .ok []
  else
    match get_route_with_waypoints with
    | .error e => .error e
    | .ok legs => .ok (accumulateEtas stops (some ()) legs 0 0 0)

/-- The static failsafe entry built at eta.py lines 104-115 when the live ETA
calculation produced nothing. -/
def failsafeStop (s : Station) : StopWithETA :=
  ⟨s.id, s.name, s.lat, s.lon, -1, -1, "upcoming", "estimate_fallback", none⟩

/-- The per-route segment-distance cache of ETAService
(`self._segment_distance_cache`): route id → (segment key → distance). -/
def SegCache : Type := String → Option (String → Option ℝ)

noncomputable def emptySegCache : SegCache := fun _ => none

/-- Value returned by one _get_segment_distance call: the distance, both
cache states left behind, and whether an HTTP request to the engine was
issued (by the inner get_route call). -/
structure SegCall where
  distance : ℝ
  segCache : SegCache
  osrmCache : OsrmCache
  queried : Bool

/-- ETAService._get_segment_distance (eta.py lines 403-449).  The inner dict
for the route id is created if absent; a cached segment distance is returned
directly.  On a miss, get_route is consulted and any result whose
distance_meters is positive is stored and returned — the code checks only
`result.get("distance_meters", 0) > 0`, never the result's source, so
fallback estimates coming back from get_route are cached like routed ones.
Only a non-positive distance (or an exception) leads to the uncached
haversine fallback. -/
noncomputable def get_segment_distance (route_id : String) (fromS toS : Station)
    (mode : String) (eng : RouteOutcome) (now : ℝ)
    (osrmC : OsrmCache) (segC : SegCache) : SegCall :=
  let key := fromS.id ++ "->" ++ toS.id
  let segC1 : SegCache :=
    match segC route_id with
    | none => fun rid => if rid = route_id then some (fun _ => none) else segC rid
    | some _ => segC
  match (segC1 route_id).bind (fun m => m key) with
  | some d => ⟨d, segC1, osrmC, false⟩
  | none =>
    let call := get_route eng now (fromS.lat, fromS.lon) (toS.lat, toS.lon) mode osrmC
    if 0 < call.result.distance_meters then
      let d : ℝ := (call.result.distance_meters : ℝ)
      ⟨d,
       fun rid =>
         if rid = route_id then
           some (fun k => if k = key then some d else ((segC1 route_id).getD (fun _ => none)) k)
         else segC1 rid,
       call.cache, call.queried⟩
    else
      ⟨haversine_distance fromS.lat fromS.lon toS.lat toS.lon, segC1,
       call.cache, call.queried⟩

/-- ETAService.get_upcoming_stops_eta (eta.py lines 40-209).  The route
registry (ROUTE_DEFINITIONS with get_route_direction / get_route_stops) is
passed as a lookup from route id to (direction, ordered stops).  `eng` is the
outcome of the one engine exchange the call can attempt (the segment-distance
lookup of step 7; the waypoint ETA call raises before reaching the network).
Returns the response dict together with the cache states left behind. -/
noncomputable def get_upcoming_stops_eta
    (registry : String → Option (String × List Station))
    (route_id : String) (loc : ℝ × ℝ) (now ts : ℝ)
    (max_stops : ℕ) (mode : String) (eng : RouteOutcome)
    (osrmC : OsrmCache) (segC : SegCache) :
    ETAResult × SegCache × OsrmCache :=
  let maxStops := min max_stops 10
  let is_stale : Bool := decide (60 < now - ts)
  match registry route_id with
  | none =>
    (⟨route_id, "Unknown Route", none, [], true, is_stale,
      some "Route definition not found"⟩, segC, osrmC)
  | some (direction, route_stops) =>
    if route_stops.isEmpty then
      (⟨route_id, direction, none, [], true, is_stale, some "No stops defined"⟩,
       segC, osrmC)
    else
      let upcoming := filter_upcoming_stops loc route_stops
      let off := is_off_route loc route_stops upcoming
      let slice := upcoming.take maxStops
      let etas : List StopWithETA :=
        if slice.isEmpty then []
        else
          let attempt :=
            match calculate_etas loc slice mode with
            | .ok l => l
            | .error _ => []
          if attempt.isEmpty then slice.map failsafeStop else attempt
      let noSeg : ETAResult × SegCache × OsrmCache :=
        (⟨route_id, direction, none, etas, off, is_stale, none⟩, segC, osrmC)
      if !off && !upcoming.isEmpty && !etas.isEmpty then
        let idx := find_current_segment loc route_stops
        if idx + 1 < route_stops.length then
          match route_stops[idx]?, route_stops[idx + 1]? with
          | some fromS, some toS =>
            if upcoming.any (fun s => s.id = toS.id) then
              let segRes := get_segment_distance route_id fromS toS mode eng now osrmC segC
              let total := segRes.distance
              let remaining : ℝ :=
                match etas.find? (fun e => e.stop_id = toS.id) with
                | some e =>
                  if e.source = "osrm" ∧ 0 < e.distance_meters then
                    (e.distance_meters : ℝ)
                  else haversine_distance loc.1 loc.2 toS.lat toS.lon
                | none => haversine_distance loc.1 loc.2 toS.lat toS.lon
              let ratio :=
                max 0 (min 1 (if 0 < total then (total - remaining) / total else 0))
              let seg : SegmentProgress :=
                ⟨⟨fromS.id, fromS.name, fromS.lat, fromS.lon⟩,
                 ⟨toS.id, toS.name, toS.lat, toS.lon⟩, total, remaining, ratio⟩
              (⟨route_id, direction, some seg, etas, off, is_stale, none⟩,
               segRes.segCache, segRes.osrmCache)
            else noSeg
          | _, _ => noSeg
        else noSeg
      else noSeg

/- ================= Scenario constants and classifiers ================= -/

/-- Stop A at latitude 0, longitude 0 (scenario of spec section 8). -/
def stA : Station := ⟨"A", "Stop A", 0, 0⟩

/-- Stop B at latitude 0, longitude 1. -/
def stB : Station := ⟨"B", "Stop B", 0, 1⟩

/-- Stop C at latitude 0, longitude 2. -/
def stC : Station := ⟨"C", "Stop C", 0, 2⟩

/-- A registry with a single two-stop route "r1": A then B. -/
noncomputable def regAB : String → Option (String × List Station) :=
  fun rid => if rid = "r1" then some ("A → B", [stA, stB]) else none

/-- A registry with a single three-stop route "r3": A, B, C. -/
noncomputable def regABC : String → Option (String × List Station) :=
  fun rid => if rid = "r3" then some ("A → C", [stA, stB, stC]) else none

/-- A fully well-formed successful route response: HTTP 200, code "Ok", one
route with duration 600 s and distance 8000 m. -/
def okRoutePayload : RoutePayload := ⟨some "Ok", none, some [⟨some 600, some 8000⟩]⟩

/-- A successful route response used for the segment-distance engine call:
duration 90 s, distance 1200 m. -/
def segRoutePayload : RoutePayload := ⟨some "Ok", none, some [⟨some 90, some 1200⟩]⟩

/-- A table response with HTTP 200 whose engine code is not "Ok". -/
def errTablePayload : TablePayload := ⟨some "NoTable", some "NoTable", none, none⟩

/-- The degraded-but-handled failure classes of a get_route exchange: timeout,
any other exception, a 4xx/5xx HTTP status, a non-"Ok" engine code, a missing
or empty routes array, or a first route entry missing its duration or
distance field. -/
def routeFailureClass (eng : RouteOutcome) : Prop :=
  eng = .timeout ∨ eng = .failure ∨
  ∃ status payload, eng = .response status payload ∧
    (400 ≤ status ∨ payload.code ≠ some "Ok" ∨ payload.routes = none ∨
     payload.routes = some [] ∨
     ∃ r rs, payload.routes = some (r :: rs) ∧
       (r.duration = none ∨ r.distance = none))
/- ================= Helper lemmas ================= -/

theorem pyInt_mono {x y : ℝ} (h : x ≤ y) : pyInt x ≤ pyInt y := by
  unfold pyInt
  split_ifs with hx hy hy
  · exact Int.floor_le_floor h
  · exact absurd (le_trans hx h) hy
  · refine le_trans (Int.ceil_le.mpr ?_) (Int.floor_nonneg.mpr hy)
    exact_mod_cast le_of_not_le hx
  · exact Int.ceil_le_ceil h

theorem pyInt_pos {x : ℝ} (h : 1 ≤ x) : 0 < pyInt x := by
  unfold pyInt
  rw [if_pos (le_trans zero_le_one h)]
  have h1 : (1 : ℤ) ≤ ⌊x⌋ := by
    rw [Int.le_floor]
    exact_mod_cast h
  omega

theorem routeCacheLookup_miss_entry {now : ℝ} {c : OsrmCache}
    {coords : List (ℝ × ℝ)} {profile : String}
    (h : (routeCacheLookup now c coords profile).1 = none) :
    (routeCacheLookup now c coords profile).2.routeC coords profile = none := by
  unfold routeCacheLookup at h ⊢
  cases hc : c.routeC coords profile with
  | none => simpa using hc
  | some vt =>
    obtain ⟨v, t⟩ := vt
    by_cases hf : now - t < 60
    · simp [hc, hf] at h
    · simp [hc, hf]

theorem get_route_miss (eng : RouteOutcome) (now : ℝ)
    (origin destination : ℝ × ℝ) (profile : String) (cache : OsrmCache)
    (hmiss : (routeCacheLookup now cache [origin, destination] profile).1 = none) :
    get_route eng now origin destination profile cache =
      get_route_engine eng now origin destination profile
        (routeCacheLookup now cache [origin, destination] profile).2 := by
  unfold get_route
  rcases hpair : routeCacheLookup now cache [origin, destination] profile with ⟨o, c1⟩
  rw [hpair] at hmiss
  simp only at hmiss
  subst hmiss
  rfl

theorem get_route_engine_queried (eng : RouteOutcome) (now : ℝ)
    (origin destination : ℝ × ℝ) (profile : String) (c1 : OsrmCache) :
    (get_route_engine eng now origin destination profile c1).queried = true := by
  unfold get_route_engine
  cases eng with
  | timeout => rfl
  | failure => rfl
  | response status payload =>
    by_cases hs : 400 ≤ status
    · simp [hs]
    · by_cases hc : payload.code = some "Ok"
      · rcases hr : payload.routes with _ | ⟨_ | ⟨r, rs⟩⟩
        · simp [hs, hc, hr]
        · simp [hs, hc, hr]
        · rcases hd : r.duration with _ | du
          · simp [hs, hc, hr, hd]
          · rcases hd2 : r.distance with _ | di
            · simp [hs, hc, hr, hd, hd2]
            · simp [hs, hc, hr, hd, hd2]
      · simp [hs, hc]

theorem get_route_queried_of_no_entry (eng : RouteOutcome) (now : ℝ)
    (origin destination : ℝ × ℝ) (profile : String) (cache : OsrmCache)
    (h : cache.routeC [origin, destination] profile = none) :
    (get_route eng now origin destination profile cache).queried = true := by
  have hmiss : (routeCacheLookup now cache [origin, destination] profile).1 = none := by
    unfold routeCacheLookup
    rw [h]
  rw [get_route_miss eng now origin destination profile cache hmiss]
  exact get_route_engine_queried ..

/-- Core behaviour of the get_route exchange on every degraded-but-handled
failure: the fallback estimate is returned, the engine was consulted, and the
cache is left exactly as the lookup left it (no write). -/
theorem get_route_engine_fallback (eng : RouteOutcome) (now : ℝ)
    (origin destination : ℝ × ℝ) (profile : String) (c1 : OsrmCache)
    (hfail : routeFailureClass eng) :
    get_route_engine eng now origin destination profile c1 =
      ⟨fallbackEstimate origin destination profile, c1, true⟩ := by
  unfold get_route_engine
  rcases hfail with h | h | ⟨status, payload, h, hcase⟩
  · subst h; rfl
  · subst h; rfl
  · subst h
    by_cases hs : 400 ≤ status
    · simp [hs]
    · rcases hcase with hs' | hc | hr | hr | ⟨r, rs, hr, hfield⟩
      · exact absurd hs' hs
      · simp [hs, hc]
      · by_cases hc : payload.code = some "Ok"
        · simp [hs, hc, hr]
        · simp [hs, hc]
      · by_cases hc : payload.code = some "Ok"
        · simp [hs, hc, hr]
        · simp [hs, hc]
      · by_cases hc : payload.code = some "Ok"
        · rcases hfield with hd | hd
          · simp [hs, hc, hr, hd]
          · rcases hdu : r.duration with _ | du
            · simp [hs, hc, hr, hdu]
            · simp [hs, hc, hr, hdu, hd]
        · simp [hs, hc]

/-- Core behaviour of the get_route exchange on a fully well-formed success:
the routed result (with no "source" key) is returned and written to the
cache. -/
theorem get_route_engine_success (status : ℕ) (payload : RoutePayload)
    (r : OsrmRouteEntry) (rs : List OsrmRouteEntry) (du di : ℝ) (now : ℝ)
    (origin destination : ℝ × ℝ) (profile : String) (c1 : OsrmCache)
    (hst : status < 400) (hcode : payload.code = some "Ok")
    (hroutes : payload.routes = some (r :: rs))
    (hdu : r.duration = some du) (hdi : r.distance = some di) :
    get_route_engine (.response status payload) now origin destination profile c1 =
      ⟨⟨pyInt du, pyInt di, none, some ()⟩,
       setRouteCache c1 [origin, destination] profile
         ⟨pyInt du, pyInt di, none, some ()⟩ now, true⟩ := by
  unfold get_route_engine
  simp [Nat.not_le.mpr hst, hcode, hroutes, hdu, hdi]

/-- Invariant of the _find_current_segment scan: starting at position `i` with
current best `(b, m)`, the final minimum bounds every remaining distance, and
the final best index is either the incoming one (nothing was strictly
smaller) or the first strict improvement. -/
theorem scanArgmin_spec (ds : List ℝ) : ∀ (i b : ℕ) (m : ℝ),
    ∃ m', (scanArgmin ds i (b, some m)).2 = some m' ∧ m' ≤ m ∧
      (∀ j, j < ds.length → m' ≤ ds.getD j 0) ∧
      (((scanArgmin ds i (b, some m)).1 = b ∧ m' = m) ∨
       (∃ j, j < ds.length ∧ (scanArgmin ds i (b, some m)).1 = i + j ∧
         m' = ds.getD j 0 ∧ ds.getD j 0 < m ∧
         (∀ j', j' < j → m' < ds.getD j' 0))) := by
  induction ds with
  | nil =>
    intro i b m
    exact ⟨m, rfl, le_refl m, by simp, Or.inl ⟨rfl, rfl⟩⟩
  | cons d rest ih =>
    intro i b m
    by_cases hdm : d < m
    · obtain ⟨m', h1, h2, h3, h4⟩ := ih (i + 1) i d
      have hstep : scanArgmin (d :: rest) i (b, some m) =
          scanArgmin rest (i + 1) (i, some d) := by
        simp [scanArgmin, hdm]
      rw [hstep]
      refine ⟨m', h1, le_trans h2 (le_of_lt hdm), ?_, ?_⟩
      · intro j hj
        cases j with
        | zero =>
          simp only [List.getD_cons_zero]
          exact h2
        | succ j' =>
          simp only [List.getD_cons_succ]
          exact h3 j' (by simpa using hj)
      · rcases h4 with ⟨hb, hm⟩ | ⟨j, hj, hidx, hval, hlt, hpre⟩
        · refine Or.inr ⟨0, by simp, by simp [hb], ?_, ?_, ?_⟩
          · simp only [List.getD_cons_zero]
            exact hm
          · simp only [List.getD_cons_zero]
            exact hdm
          · intro j' hj'
            omega
        · refine Or.inr ⟨j + 1, by simpa using hj, by rw [hidx]; omega, ?_, ?_, ?_⟩
          · simp only [List.getD_cons_succ]
            exact hval
          · simp only [List.getD_cons_succ]
            exact lt_trans hlt hdm
          · intro j' hj'
            cases j' with
            | zero =>
              simp only [List.getD_cons_zero]
              rw [hval]
              exact hlt
            | succ j'' =>
              simp only [List.getD_cons_succ]
              exact hpre j'' (by omega)
    · obtain ⟨m', h1, h2, h3, h4⟩ := ih (i + 1) b m
      have hstep : scanArgmin (d :: rest) i (b, some m) =
          scanArgmin rest (i + 1) (b, some m) := by
        simp [scanArgmin, hdm]
      rw [hstep]
      refine ⟨m', h1, h2, ?_, ?_⟩
      · intro j hj
        cases j with
        | zero =>
          simp only [List.getD_cons_zero]
          exact le_trans h2 (le_of_not_lt hdm)
        | succ j' =>
          simp only [List.getD_cons_succ]
          exact h3 j' (by simpa using hj)
      · rcases h4 with ⟨hb, hm⟩ | ⟨j, hj, hidx, hval, hlt, hpre⟩
        · exact Or.inl ⟨hb, hm⟩
        · refine Or.inr ⟨j + 1, by simpa using hj, by rw [hidx]; omega, ?_, ?_, ?_⟩
          · simp only [List.getD_cons_succ]
            exact hval
          · simp only [List.getD_cons_succ]
            exact hlt
          · intro j' hj'
            cases j' with
            | zero =>
              simp only [List.getD_cons_zero]
              rw [hval]
              exact lt_of_lt_of_le hlt (le_of_not_lt hdm)
            | succ j'' =>
              simp only [List.getD_cons_succ]
              exact hpre j'' (by omega)

/-- argminFirst of a non-empty list is a valid index attaining the minimum,
and every earlier index holds a strictly larger value. -/
theorem argminFirst_spec (ds : List ℝ) (h : ds ≠ []) :
    argminFirst ds < ds.length ∧
    (∀ j, j < ds.length → ds.getD (argminFirst ds) 0 ≤ ds.getD j 0) ∧
    (∀ j, j < argminFirst ds → ds.getD (argminFirst ds) 0 < ds.getD j 0) := by
  obtain ⟨d, rest, rfl⟩ : ∃ d rest, ds = d :: rest := by
    cases ds with
    | nil => exact absurd rfl h
    | cons d rest => exact ⟨d, rest, rfl⟩
  have hfirst : argminFirst (d :: rest) = (scanArgmin rest 1 (0, some d)).1 := by
    simp [argminFirst, scanArgmin]
  obtain ⟨m', _h1, h2, h3, h4⟩ := scanArgmin_spec rest 1 0 d
  rcases h4 with ⟨hb, hm⟩ | ⟨j, hj, hidx, hval, hlt, hpre⟩
  · rw [hfirst, hb]
    refine ⟨by simp, ?_, by omega⟩
    intro j hj
    cases j with
    | zero => simp
    | succ j' =>
      simp only [List.getD_cons_zero, List.getD_cons_succ]
      rw [← hm]
      exact h3 j' (by simpa using hj)
  · rw [hfirst, hidx]
    have honeadd : 1 + j = j + 1 := by omega
    have hget : (d :: rest).getD (1 + j) 0 = rest.getD j 0 := by
      rw [honeadd]
      simp only [List.getD_cons_succ]
    refine ⟨?_, ?_, ?_⟩
    · simp only [List.length_cons]
      omega
    · intro j' hj'
      rw [hget, ← hval]
      cases j' with
      | zero =>
        simp only [List.getD_cons_zero]
        exact le_trans (le_of_eq hval) (le_of_lt hlt)
      | succ j'' =>
        simp only [List.getD_cons_succ]
        exact h3 j'' (by simpa using hj')
    · intro j' hj'
      rw [hget, ← hval]
      cases j' with
      | zero =>
        simp only [List.getD_cons_zero]
        exact hval ▸ hlt
      | succ j'' =>
        simp only [List.getD_cons_succ]
        exact hpre j'' (by omega)

/-- Evaluation of _point_to_segment_distance when the point and both segment
endpoints lie on the equator (latitude 0): the local frame degenerates to a
one-dimensional scale along longitude. -/
theorem pointToSegment_flat (p a b : ℝ) (hab : a ≠ b) :
    pointToSegmentDistance (0, p) (0, a) (0, b) =
      (|p - a - max 0 (min 1 ((p - a) / (b - a))) * (b - a)| * (Real.pi / 180 * 6371000),
       (p - a) / (b - a)) := by
  have hpi : (0:ℝ) < Real.pi := Real.pi_pos
  have hradR : (0:ℝ) < Real.pi / 180 * 6371000 := by positivity
  have hba : b - a ≠ 0 := sub_ne_zero.mpr (Ne.symm hab)
  unfold pointToSegmentDistance
  simp only
  have hcos : Real.cos (((0:ℝ) + 0 + 0) / 3 * (Real.pi / 180)) = 1 := by
    norm_num
  rw [hcos]
  have habsq : (b * (Real.pi / 180) * 1 * 6371000 - a * (Real.pi / 180) * 1 * 6371000) ^ 2 +
      ((0:ℝ) * (Real.pi / 180) * 6371000 - 0 * (Real.pi / 180) * 6371000) ^ 2 ≠ 0 := by
    have : (b * (Real.pi / 180) * 1 * 6371000 - a * (Real.pi / 180) * 6371000 * 1) ≠ 0 := by
      have : b * (Real.pi / 180) * 1 * 6371000 - a * (Real.pi / 180) * 6371000 * 1 =
          (b - a) * (Real.pi / 180 * 6371000) := by ring
      rw [this]
      exact mul_ne_zero hba (ne_of_gt hradR)
    intro hzero
    apply this
    nlinarith [sq_nonneg (b * (Real.pi / 180) * 1 * 6371000 - a * (Real.pi / 180) * 1 * 6371000)]
  rw [if_neg habsq]
  have heq : ((p * (Real.pi / 180) * 1 * 6371000 - a * (Real.pi / 180) * 1 * 6371000) *
        (b * (Real.pi / 180) * 1 * 6371000 - a * (Real.pi / 180) * 1 * 6371000) +
        ((0:ℝ) * (Real.pi / 180) * 6371000 - 0 * (Real.pi / 180) * 6371000) *
        ((0:ℝ) * (Real.pi / 180) * 6371000 - 0 * (Real.pi / 180) * 6371000)) /
        ((b * (Real.pi / 180) * 1 * 6371000 - a * (Real.pi / 180) * 1 * 6371000) ^ 2 +
         ((0:ℝ) * (Real.pi / 180) * 6371000 - 0 * (Real.pi / 180) * 6371000) ^ 2) =
      (p - a) / (b - a) := by
    rw [div_eq_div_iff habsq hba]
    ring
  rw [heq]
  rw [Prod.mk.injEq]
  refine ⟨?_, rfl⟩
  have harg : (p * (Real.pi / 180) * 1 * 6371000 -
        (a * (Real.pi / 180) * 1 * 6371000 +
          max 0 (min 1 ((p - a) / (b - a))) *
            (b * (Real.pi / 180) * 1 * 6371000 - a * (Real.pi / 180) * 1 * 6371000))) ^ 2 +
      ((0:ℝ) * (Real.pi / 180) * 6371000 -
        ((0:ℝ) * (Real.pi / 180) * 6371000 +
          max 0 (min 1 ((p - a) / (b - a))) *
            ((0:ℝ) * (Real.pi / 180) * 6371000 - 0 * (Real.pi / 180) * 6371000))) ^ 2 =
      ((p - a - max 0 (min 1 ((p - a) / (b - a))) * (b - a)) * (Real.pi / 180 * 6371000)) ^ 2 := by
    ring
  rw [harg, Real.sqrt_sq_eq_abs, abs_mul, abs_of_pos hradR]

/-- Evaluation of haversine_distance along the equator from longitude 0 to
longitude 1: one degree of arc at Earth radius 6371000 m. -/
theorem haversine_0_1 : haversine_distance 0 0 0 1 = 6371000 * (Real.pi / 180) := by
  unfold haversine_distance radians
  simp only
  norm_num
  have hpi := Real.pi_pos
  have hx0 : (0:ℝ) < Real.pi / 180 / 2 := by positivity
  have hxlt : Real.pi / 180 / 2 < Real.pi / 2 := by nlinarith
  have hxpi : Real.pi / 180 / 2 ≤ Real.pi := by nlinarith
  have hneg : -(Real.pi / 2) < Real.pi / 180 / 2 := by nlinarith
  have hs : Real.sqrt (Real.sin (Real.pi / 180 / 2) ^ 2) = Real.sin (Real.pi / 180 / 2) :=
    Real.sqrt_sq (Real.sin_nonneg_of_nonneg_of_le_pi hx0.le hxpi)
  have hcospos : 0 < Real.cos (Real.pi / 180 / 2) :=
    Real.cos_pos_of_mem_Ioo ⟨hneg, hxlt⟩
  have hc : Real.sqrt (1 - Real.sin (Real.pi / 180 / 2) ^ 2) =
      Real.cos (Real.pi / 180 / 2) := by
    rw [← Real.cos_sq']
    exact Real.sqrt_sq hcospos.le
  rw [hs, hc]
  unfold atan2
  rw [if_pos hcospos, ← Real.tan_eq_sin_div_cos, Real.arctan_tan hneg hxlt]
  ring

theorem haversine_0_1_ge_one : 1 ≤ haversine_distance 0 0 0 1 := by
  rw [haversine_0_1]
  nlinarith [Real.pi_gt_three]

/-- Each entry produced by the ETA accumulation loop carries the truncated
running sums of the legs consumed up to and including its own. -/
theorem accumulateEtas_get (stops : List Station) (req : Option Unit) :
    ∀ (legs : List Leg) (i : ℕ) (accD accM : ℝ) (j : ℕ) (e : StopWithETA),
      (accumulateEtas stops req legs i accD accM)[j]? = some e →
      e.eta_seconds = pyInt (accD + ((legs.take (j + 1)).map Leg.duration).sum) ∧
      e.distance_meters = pyInt (accM + ((legs.take (j + 1)).map Leg.distance).sum) := by
  intro legs
  induction legs with
  | nil =>
    intro i accD accM j e h
    simp [accumulateEtas] at h
  | cons leg rest ih =>
    intro i accD accM j e h
    simp only [accumulateEtas] at h
    by_cases hlen : stops.length ≤ i
    · rw [if_pos hlen] at h
      simp at h
    · rw [if_neg hlen] at h
      rcases hstop : stops[i]? with _ | stop
      · rw [hstop] at h
        simp at h
      · rw [hstop] at h
        cases j with
        | zero =>
          rw [List.getElem?_cons_zero] at h
          injection h with h
          subst h
          constructor
          · show pyInt (accD + leg.duration) = _
            congr 1
            simp
          · show pyInt (accM + leg.distance) = _
            congr 1
            simp
        | succ j' =>
          rw [List.getElem?_cons_succ] at h
          obtain ⟨h1, h2⟩ := ih (i + 1) (accD + leg.duration) (accM + leg.distance) j' e h
          constructor
          · rw [h1]
            congr 1
            simp only [List.take_succ_cons, List.map_cons, List.sum_cons]
            ring
          · rw [h2]
            congr 1
            simp only [List.take_succ_cons, List.map_cons, List.sum_cons]
            ring

/-- When every leg is non-negative, consecutive entries produced by the ETA
accumulation loop have non-decreasing eta_seconds and distance_meters. -/
theorem accumulateEtas_chain (stops : List Station) (req : Option Unit) :
    ∀ (legs : List Leg) (i : ℕ) (accD accM : ℝ),
      (∀ l ∈ legs, 0 ≤ l.duration ∧ 0 ≤ l.distance) →
      List.Chain' (fun a b => a.eta_seconds ≤ b.eta_seconds ∧
        a.distance_meters ≤ b.distance_meters)
        (accumulateEtas stops req legs i accD accM) := by
  intro legs
  induction legs with
  | nil =>
    intro i accD accM _
    simp [accumulateEtas]
  | cons leg rest ih =>
    intro i accD accM hnn
    simp only [accumulateEtas]
    by_cases hlen : stops.length ≤ i
    · rw [if_pos hlen]
      exact List.chain'_nil
    · rw [if_neg hlen]
      rcases hstop : stops[i]? with _ | stop
      · exact List.chain'_nil
      · refine List.chain'_cons'.mpr ⟨?_, ih (i + 1) (accD + leg.duration)
          (accM + leg.distance) (fun l hl => hnn l (List.mem_cons_of_mem leg hl))⟩
        intro b hb
        cases rest with
        | nil => simp [accumulateEtas] at hb
        | cons leg2 rest2 =>
          simp only [accumulateEtas] at hb
          by_cases hlen2 : stops.length ≤ i + 1
          · rw [if_pos hlen2] at hb
            simp at hb
          · rw [if_neg hlen2] at hb
            rcases hstop2 : stops[i + 1]? with _ | stop2
            · rw [hstop2] at hb
              simp at hb
            · rw [hstop2] at hb
              simp only [List.head?_cons, Option.mem_some_iff] at hb
              subst hb
              have hd := (hnn leg2 (by simp)).1
              have hm := (hnn leg2 (by simp)).2
              constructor
              · show pyInt (accD + leg.duration) ≤
                  pyInt (accD + leg.duration + leg2.duration)
                exact pyInt_mono (by linarith)
              · show pyInt (accM + leg.distance) ≤
                  pyInt (accM + leg.distance + leg2.distance)
                exact pyInt_mono (by linarith)

theorem routeCacheLookup_subset {now : ℝ} {c : OsrmCache}
    {coords : List (ℝ × ℝ)} {profile : String} (k : List (ℝ × ℝ)) (p : String)
    (v : RouteResult × ℝ)
    (h : (routeCacheLookup now c coords profile).2.routeC k p = some v) :
    c.routeC k p = some v := by
  unfold routeCacheLookup at h
  cases hc : c.routeC coords profile with
  | none =>
    rw [hc] at h
    exact h
  | some vt =>
    obtain ⟨w, t⟩ := vt
    rw [hc] at h
    simp only at h
    by_cases hf : now - t < 60
    · rw [if_pos hf] at h
      exact h
    · rw [if_neg hf] at h
      simp only at h
      by_cases hk : k = coords ∧ p = profile
      · rw [if_pos hk] at h
        exact absurd h (by simp)
      · rw [if_neg hk] at h
        exact h

theorem get_table_miss (eng : TableOutcome) (now : ℝ) (origin : ℝ × ℝ)
    (destinations : List (ℝ × ℝ)) (profile : String) (cache : OsrmCache)
    (hmiss : (tableCacheLookup now cache (origin :: destinations) profile).1 = none) :
    get_table eng now origin destinations profile cache =
      get_table_engine eng now origin destinations profile
        (tableCacheLookup now cache (origin :: destinations) profile).2 := by
  unfold get_table
  rcases hpair : tableCacheLookup now cache (origin :: destinations) profile with ⟨o, c1⟩
  rw [hpair] at hmiss
  simp only at hmiss
  subst hmiss
  rfl

/- ================= Claim theorems ================= -/

/-- C5: for every getRoute call on which the engine times out, returns a
non-2xx HTTP status (for example 504), or returns a payload missing the
expected route data — and whose response cache holds no fresh entry for the
key — the call does not raise (get_route is total in this embedding: every
failure class is handled) and returns the closed-form fallback: its
distance_meters is the truncated haversine distance from origin to
destination, its duration_seconds is that distance divided by the mode's
average speed, where the speed is 13.89 m/s for driving and 1.39 m/s for
walking, and it carries the fallback source tag, spelled "estimate_fallback"
in the code. -/
theorem C5_getRoute_fallback (eng : RouteOutcome) (now : ℝ)
    (origin destination : ℝ × ℝ) (profile : String) (cache : OsrmCache)
    (hmiss : (routeCacheLookup now cache [origin, destination] profile).1 = none)
    (hfail : routeFailureClass eng) :
    (get_route eng now origin destination profile cache).result.distance_meters =
      pyInt (haversine_distance origin.1 origin.2 destination.1 destination.2) ∧
    (get_route eng now origin destination profile cache).result.duration_seconds =
      pyInt (haversine_distance origin.1 origin.2 destination.1 destination.2 /
        avgSpeed profile) ∧
    (get_route eng now origin destination profile cache).result.source =
      some "estimate_fallback" ∧
    avgSpeed "driving" = 13.89 ∧ avgSpeed "walking" = 1.39 := by
  rw [get_route_miss eng now origin destination profile cache hmiss,
    get_route_engine_fallback eng now origin destination profile _ hfail]
  refine ⟨rfl, rfl, rfl, by simp [avgSpeed], by simp [avgSpeed]⟩

/-- C5 witness: a concrete HTTP 504 response for getRoute((0,0),(0,1)) on an
empty cache yields the fallback-tagged haversine result. -/
theorem C5_getRoute_fallback_witness :
    (get_route (.response 504 ⟨none, none, none⟩) 0 (0, 0) (0, 1) "driving"
        emptyOsrmCache).result.distance_meters = pyInt (haversine_distance 0 0 0 1) ∧
    (get_route (.response 504 ⟨none, none, none⟩) 0 (0, 0) (0, 1) "driving"
        emptyOsrmCache).result.duration_seconds =
      pyInt (haversine_distance 0 0 0 1 / avgSpeed "driving") ∧
    (get_route (.response 504 ⟨none, none, none⟩) 0 (0, 0) (0, 1) "driving"
        emptyOsrmCache).result.source = some "estimate_fallback" := by
  have h := C5_getRoute_fallback (.response 504 ⟨none, none, none⟩) 0 (0, 0) (0, 1)
    "driving" emptyOsrmCache (by simp [routeCacheLookup, emptyOsrmCache])
    (Or.inr (Or.inr ⟨504, ⟨none, none, none⟩, rfl, Or.inl (by norm_num)⟩))
  exact ⟨h.1, h.2.1, h.2.2.1⟩

/-- C9 counterexample: a fully successful engine response (2xx, code Ok, one
route with duration and distance) makes getRoute return a result whose source
field is absent (none) — in particular it is not tagged source = "routed". -/
theorem C9_counterexample :
    (get_route (.response 200 okRoutePayload) 0 (0, 0) (0, 1) "driving"
        emptyOsrmCache).result.source = none ∧
    (get_route (.response 200 okRoutePayload) 0 (0, 0) (0, 1) "driving"
        emptyOsrmCache).result.source ≠ some "routed" := by
  rw [get_route_miss _ _ _ _ _ _ (by simp [routeCacheLookup, emptyOsrmCache]),
    get_route_engine_success 200 okRoutePayload ⟨some 600, some 8000⟩ [] 600 8000 0
      (0, 0) (0, 1) "driving" _ (by norm_num) rfl rfl rfl rfl]
  exact ⟨rfl, by simp⟩

/-- C9 (amended): on every successful engine response (2xx, code Ok, at least
one route carrying duration and distance), getRoute returns the routed result
with truncated duration and distance, a request URL, and no source tag at all
(the "source" key is absent; only fallback results are tagged, with
"estimate_fallback"); the result is also written to the response cache. -/
theorem C9_success_untagged (status : ℕ) (payload : RoutePayload)
    (r : OsrmRouteEntry) (rs : List OsrmRouteEntry) (du di : ℝ) (now : ℝ)
    (origin destination : ℝ × ℝ) (profile : String) (cache : OsrmCache)
    (hmiss : (routeCacheLookup now cache [origin, destination] profile).1 = none)
    (hst : status < 400) (hcode : payload.code = some "Ok")
    (hroutes : payload.routes = some (r :: rs))
    (hdu : r.duration = some du) (hdi : r.distance = some di) :
    (get_route (.response status payload) now origin destination profile
        cache).result = ⟨pyInt du, pyInt di, none, some ()⟩ ∧
    (get_route (.response status payload) now origin destination profile
        cache).cache.routeC [origin, destination] profile =
      some (⟨pyInt du, pyInt di, none, some ()⟩, now) := by
  rw [get_route_miss _ _ _ _ _ _ hmiss,
    get_route_engine_success status payload r rs du di now origin destination
      profile _ hst hcode hroutes hdu hdi]
  exact ⟨rfl, by simp [setRouteCache]⟩

/-- C9 witness: the concrete successful response evaluated through the
amended theorem. -/
theorem C9_success_untagged_witness :
    (get_route (.response 200 okRoutePayload) 1 (0, 0) (0, 1) "walking"
        emptyOsrmCache).result = ⟨pyInt 600, pyInt 8000, none, some ()⟩ := by
  exact (C9_success_untagged 200 okRoutePayload ⟨some 600, some 8000⟩ [] 600 8000 1
    (0, 0) (0, 1) "walking" emptyOsrmCache
    (by simp [routeCacheLookup, emptyOsrmCache]) (by norm_num) rfl rfl rfl rfl).1

/-- C10: getRoute writes to its TTL response cache only on the success path.
On every failing call whose lookup misses, the fallback result is returned
and not cached — the key still has no entry afterwards (the only cache
mutation a failing call can make is the lookup's deletion of an expired
entry), every entry of the resulting cache was already present before the
call, and an immediately repeated identical call consults the engine again. -/
theorem C10_no_fallback_caching (eng : RouteOutcome) (now : ℝ)
    (origin destination : ℝ × ℝ) (profile : String) (cache : OsrmCache)
    (hmiss : (routeCacheLookup now cache [origin, destination] profile).1 = none)
    (hfail : routeFailureClass eng) :
    (get_route eng now origin destination profile cache).result =
      fallbackEstimate origin destination profile ∧
    (get_route eng now origin destination profile cache).cache.routeC
      [origin, destination] profile = none ∧
    (∀ k p v, (get_route eng now origin destination profile cache).cache.routeC
      k p = some v → cache.routeC k p = some v) ∧
    (get_route eng now origin destination profile cache).queried = true ∧
    (∀ eng2 now2, (get_route eng2 now2 origin destination profile
      (get_route eng now origin destination profile cache).cache).queried = true) := by
  rw [get_route_miss eng now origin destination profile cache hmiss,
    get_route_engine_fallback eng now origin destination profile _ hfail]
  refine ⟨rfl, routeCacheLookup_miss_entry hmiss,
    fun k p v h => routeCacheLookup_subset k p v h, rfl, ?_⟩
  intro eng2 now2
  exact get_route_queried_of_no_entry eng2 now2 origin destination profile _
    (routeCacheLookup_miss_entry hmiss)

/-- C10 witness: a concrete timed-out call on an empty cache leaves the key
uncached and a repeated call consults the engine again. -/
theorem C10_no_fallback_caching_witness :
    (get_route .timeout 0 (0, 0) (0, 1) "driving" emptyOsrmCache).cache.routeC
      [(0, 0), (0, 1)] "driving" = none ∧
    (∀ eng2 now2, (get_route eng2 now2 (0, 0) (0, 1) "driving"
      (get_route .timeout 0 (0, 0) (0, 1) "driving" emptyOsrmCache).cache).queried =
        true) := by
  have h := C10_no_fallback_caching .timeout 0 (0, 0) (0, 1) "driving" emptyOsrmCache
    (by simp [routeCacheLookup, emptyOsrmCache]) (Or.inl rfl)
  exact ⟨h.2.1, h.2.2.2.2⟩

/-- C4 counterexample: a get_table exchange that answers HTTP 200 with an
engine code other than "Ok" does not fall back — it raises
HTTPException(503), unlike a timeout, so getRoute and getTable do not treat
these failures identically. -/
theorem C4_counterexample :
    (get_table (.response 200 errTablePayload) 0 (0, 0) [(0, 1)] "driving"
        emptyOsrmCache).result = .error ⟨503, "OSRM error: NoTable"⟩ := by
  rw [get_table_miss _ _ _ _ _ _ (by simp [tableCacheLookup, emptyOsrmCache])]
  unfold get_table_engine
  norm_num [errTablePayload]
  rw [if_neg (by decide)]
  have happ : "OSRM error: " ++ "NoTable" = "OSRM error: NoTable" := by decide
  simp [happ]

/-- C4 (amended): getRoute treats every degraded failure — timeout, any
non-2xx status, malformed payload, unexpected exception — identically to a
timeout, recovering with the closed-form fallback and never raising; getTable
recovers that way only for timeouts, 5xx statuses and unexpected exceptions,
and instead raises HTTPException(503) for a non-"Ok" engine code, an
incomplete duration/distance matrix, or a non-5xx HTTP error status. -/
theorem C4_failure_handling (now : ℝ) (origin : ℝ × ℝ)
    (destinations : List (ℝ × ℝ)) (profile : String) (cache : OsrmCache)
    (hmiss : (tableCacheLookup now cache (origin :: destinations) profile).1 = none) :
    (∀ (eng : RouteOutcome) (o d : ℝ × ℝ) (c2 : OsrmCache),
      (routeCacheLookup now c2 [o, d] profile).1 = none → routeFailureClass eng →
      (get_route eng now o d profile c2).result = fallbackEstimate o d profile) ∧
    (get_table .timeout now origin destinations profile cache).result =
      .ok (destinations.map (fun d => fallbackEstimate origin d profile)) ∧
    (get_table .failure now origin destinations profile cache).result =
      .ok (destinations.map (fun d => fallbackEstimate origin d profile)) ∧
    (∀ status payload, 500 ≤ status →
      (get_table (.response status payload) now origin destinations profile
        cache).result =
      .ok (destinations.map (fun d => fallbackEstimate origin d profile))) ∧
    (∀ status payload, 400 ≤ status → status < 500 →
      (get_table (.response status payload) now origin destinations profile
        cache).result = .error ⟨503, "OSRM service error"⟩) ∧
    (∀ status payload, status < 400 → payload.code ≠ some "Ok" →
      (get_table (.response status payload) now origin destinations profile
        cache).result =
      .error ⟨503, "OSRM error: " ++ payload.message.getD "No route found"⟩) ∧
    (∀ status payload drow dtail srow stail, status < 400 →
      payload.code = some "Ok" → payload.durations = some (drow :: dtail) →
      payload.distances = some (srow :: stail) →
      (drow.length ≠ destinations.length ∨ srow.length ≠ destinations.length) →
      (get_table (.response status payload) now origin destinations profile
        cache).result = .error ⟨503, "OSRM returned incomplete matrix"⟩) := by
  refine ⟨?_, ?_, ?_, ?_, ?_, ?_, ?_⟩
  · intro eng o d c2 hm hf
    rw [get_route_miss eng now o d profile c2 hm,
      get_route_engine_fallback eng now o d profile _ hf]
  · rw [get_table_miss _ _ _ _ _ _ hmiss]
    rfl
  · rw [get_table_miss _ _ _ _ _ _ hmiss]
    rfl
  · intro status payload h5
    rw [get_table_miss _ _ _ _ _ _ hmiss]
    unfold get_table_engine
    have h4 : 400 ≤ status := by omega
    simp [h4, h5]
  · intro status payload h4 h5
    rw [get_table_miss _ _ _ _ _ _ hmiss]
    unfold get_table_engine
    simp [h4, Nat.not_le.mpr h5]
  · intro status payload h4 hcode
    rw [get_table_miss _ _ _ _ _ _ hmiss]
    unfold get_table_engine
    simp [Nat.not_le.mpr h4, hcode]
  · intro status payload drow dtail srow stail h4 hcode hdur hdist hlen
    rw [get_table_miss _ _ _ _ _ _ hmiss]
    unfold get_table_engine
    simp [Nat.not_le.mpr h4, hcode, hdur, hdist, hlen]

/-- C4 witness: a concrete 404 response makes getTable raise
HTTPException(503) rather than fall back. -/
theorem C4_failure_handling_witness :
    (get_table (.response 404 ⟨none, none, none, none⟩) 0 (0, 0) [(0, 1)] "driving"
        emptyOsrmCache).result = .error ⟨503, "OSRM service error"⟩ := by
  have h := C4_failure_handling 0 (0, 0) [(0, 1)] "driving" emptyOsrmCache
    (by simp [tableCacheLookup, emptyOsrmCache])
  exact h.2.2.2.2.1 404 ⟨none, none, none, none⟩ (by norm_num) (by norm_num)

theorem segmentDistances_length (loc : ℝ × ℝ) (stops : List Station) :
    (segmentDistances loc stops).length = stops.length - 1 := by
  simp [segmentDistances]

/-- C7: for every non-empty route, find_current_segment returns the smallest
index whose consecutive stop pair attains the minimum point-to-segment
distance; the index is at most len(stops)-2 when the route has at least two
stops, and a single-stop route yields index 0 (the scan is empty). -/
theorem C7_find_current_segment (loc : ℝ × ℝ) (stops : List Station)
    (h : stops ≠ []) :
    (stops.length = 1 → find_current_segment loc stops = 0) ∧
    (1 < stops.length →
      find_current_segment loc stops + 2 ≤ stops.length ∧
      (∀ j, j < (segmentDistances loc stops).length →
        (segmentDistances loc stops).getD (find_current_segment loc stops) 0 ≤
          (segmentDistances loc stops).getD j 0) ∧
      (∀ j, j < find_current_segment loc stops →
        (segmentDistances loc stops).getD (find_current_segment loc stops) 0 <
          (segmentDistances loc stops).getD j 0)) := by
  constructor
  · intro h1
    obtain ⟨s, rfl⟩ := List.length_eq_one.mp h1
    rfl
  · intro h2
    have hlen : (segmentDistances loc stops).length = stops.length - 1 :=
      segmentDistances_length loc stops
    have hne : segmentDistances loc stops ≠ [] := by
      intro heq
      rw [heq] at hlen
      simp at hlen
      omega
    obtain ⟨hidx, hmin, hfirst⟩ := argminFirst_spec _ hne
    refine ⟨?_, hmin, hfirst⟩
    show argminFirst (segmentDistances loc stops) + 2 ≤ stops.length
    omega

/-- C7 witness: the single-stop route evaluates to segment index 0. -/
theorem C7_find_current_segment_witness : find_current_segment (0, 0) [stA] = 0 :=
  (C7_find_current_segment (0, 0) [stA] (by simp)).1 rfl

/-- C8: for every multi-waypoint response whose per-leg durations and
distances are all non-negative, the per-stop entries built by the ETA
accumulation have non-decreasing eta_seconds and distance_meters along the
produced sequence, and each entry's values are the (truncated) accumulated
sums of the legs up to and including its own. -/
theorem C8_eta_accumulation_monotone (stops : List Station) (req : Option Unit)
    (legs : List Leg)
    (hnn : ∀ l ∈ legs, 0 ≤ l.duration ∧ 0 ≤ l.distance) :
    List.Chain' (fun a b => a.eta_seconds ≤ b.eta_seconds ∧
      a.distance_meters ≤ b.distance_meters)
      (accumulateEtas stops req legs 0 0 0) ∧
    (∀ j e, (accumulateEtas stops req legs 0 0 0)[j]? = some e →
      e.eta_seconds = pyInt (((legs.take (j + 1)).map Leg.duration).sum) ∧
      e.distance_meters = pyInt (((legs.take (j + 1)).map Leg.distance).sum)) := by
  refine ⟨accumulateEtas_chain stops req legs 0 0 0 hnn, ?_⟩
  intro j e he
  obtain ⟨h1, h2⟩ := accumulateEtas_get stops req legs 0 0 0 j e he
  rw [h1, h2]
  constructor <;> (congr 1; ring)

/-- C8 witness: two concrete non-negative legs over a two-stop tail produce a
monotone accumulated sequence. -/
theorem C8_eta_accumulation_monotone_witness :
    List.Chain' (fun a b => a.eta_seconds ≤ b.eta_seconds ∧
      a.distance_meters ≤ b.distance_meters)
      (accumulateEtas [stA, stB] (some ()) [⟨10, 150⟩, ⟨20, 30⟩] 0 0 0) := by
  refine (C8_eta_accumulation_monotone [stA, stB] (some ()) [⟨10, 150⟩, ⟨20, 30⟩] ?_).1
  intro l hl
  simp only [List.mem_cons, List.not_mem_nil, or_false] at hl
  rcases hl with rfl | rfl <;> norm_num

/-- C1: contrary to the claim, a fallback result coming back from get_route
IS stored in the segment-distance cache.  Evaluated at the failing input: on
a first call for route "r1", segment A(0,0) to B(0,1), whose engine exchange
times out, get_route returns the fallback estimate (haversine distance,
positive), _get_segment_distance checks only `distance_meters > 0` — never
the source tag — so it caches the fallback under key "A->B" and returns it,
and the immediately following call for the same segment is served from the
cache without consulting the engine again. -/
theorem C1_segment_cache_stores_fallback :
    0 < pyInt (haversine_distance 0 0 0 1) ∧
    ((get_segment_distance "r1" stA stB "driving" .timeout 0 emptyOsrmCache
        emptySegCache).segCache "r1").bind (fun m => m "A->B") =
      some ((pyInt (haversine_distance 0 0 0 1) : ℤ) : ℝ) ∧
    (get_segment_distance "r1" stA stB "driving" .timeout 0 emptyOsrmCache
        emptySegCache).distance = ((pyInt (haversine_distance 0 0 0 1) : ℤ) : ℝ) ∧
    (get_segment_distance "r1" stA stB "driving" .timeout 0 emptyOsrmCache
      (get_segment_distance "r1" stA stB "driving" .timeout 0 emptyOsrmCache
        emptySegCache).segCache).queried = false := by
  have hpos : 0 < pyInt (haversine_distance 0 0 0 1) := pyInt_pos haversine_0_1_ge_one
  refine ⟨hpos, ?_, ?_, ?_⟩
  · simp [get_segment_distance, get_route, routeCacheLookup, emptyOsrmCache,
      emptySegCache, get_route_engine, fallbackEstimate, stA, stB, hpos]
  · simp [get_segment_distance, get_route, routeCacheLookup, emptyOsrmCache,
      emptySegCache, get_route_engine, fallbackEstimate, stA, stB, hpos]
  · simp [get_segment_distance, get_route, routeCacheLookup, emptyOsrmCache,
      emptySegCache, get_route_engine, fallbackEstimate, stA, stB, hpos]

/-- C2: for every call to get_upcoming_stops_eta with a known route, a
non-empty stop list and a non-empty upcoming slice, the returned
upcoming_stops is exactly the static failsafe list over the slice — every
entry has eta_seconds = -1, distance_meters = -1, status "upcoming" and
source "estimate_fallback" — because the live waypoint path is unreachable:
OSRMService defines no get_route_with_waypoints method, so _calculate_etas
raises AttributeError, the broad handler yields the empty list, and the
failsafe list replaces it. -/
theorem C2_failsafe_upcoming (registry : String → Option (String × List Station))
    (route_id : String) (loc : ℝ × ℝ) (now ts : ℝ) (max_stops : ℕ) (mode : String)
    (eng : RouteOutcome) (osrmC : OsrmCache) (segC : SegCache)
    (direction : String) (route_stops : List Station)
    (hreg : registry route_id = some (direction, route_stops))
    (hne : route_stops ≠ [])
    (hslice : (filter_upcoming_stops loc route_stops).take (min max_stops 10) ≠ []) :
    (get_upcoming_stops_eta registry route_id loc now ts max_stops mode eng
        osrmC segC).1.upcoming_stops =
      ((filter_upcoming_stops loc route_stops).take (min max_stops 10)).map
        failsafeStop ∧
    ∀ e ∈ (get_upcoming_stops_eta registry route_id loc now ts max_stops mode eng
        osrmC segC).1.upcoming_stops,
      e.eta_seconds = -1 ∧ e.distance_meters = -1 ∧ e.status = "upcoming" ∧
      e.source = "estimate_fallback" := by
  cases route_stops with
  | nil => exact absurd rfl hne
  | cons st0 strest =>
    rcases hsl : (filter_upcoming_stops loc (st0 :: strest)).take (min max_stops 10)
      with _ | ⟨s0, srest⟩
    · exact absurd hsl hslice
    · have hmain : (get_upcoming_stops_eta registry route_id loc now ts max_stops
          mode eng osrmC segC).1.upcoming_stops = (s0 :: srest).map failsafeStop := by
        simp only [get_upcoming_stops_eta, hreg, hsl, calculate_etas,
          get_route_with_waypoints, List.isEmpty_cons, Bool.false_eq_true,
          if_false]
        repeat' split
        all_goals first
          | rfl
          | (exfalso; simp_all)
      refine ⟨hmain, ?_⟩
      intro e he
      rw [hmain] at he
      simp only [List.mem_map] at he
      obtain ⟨s, _, rfl⟩ := he
      exact ⟨rfl, rfl, rfl, rfl⟩

/-- C2 witness: on route "r1" (stops A(0,0), B(0,1)) with the vehicle at
(0, 0.3), the upcoming slice is [B] and the returned upcoming_stops is the
failsafe entry for B with eta -1, distance -1, status "upcoming", source
"estimate_fallback". -/
theorem C2_failsafe_upcoming_witness :
    (get_upcoming_stops_eta regAB "r1" (0, 0.3) 0 0 3 "driving" .timeout
        emptyOsrmCache emptySegCache).1.upcoming_stops = [failsafeStop stB] ∧
    (failsafeStop stB).eta_seconds = -1 ∧ (failsafeStop stB).distance_meters = -1 ∧
    (failsafeStop stB).status = "upcoming" ∧
    (failsafeStop stB).source = "estimate_fallback" := by
  have hfilter : filter_upcoming_stops (0, 0.3) [stA, stB] = [stB] := rfl
  have hslice : (filter_upcoming_stops (0, 0.3) [stA, stB]).take (min 3 10) ≠ [] := by
    rw [hfilter]
    simp
  have h := C2_failsafe_upcoming regAB "r1" (0, 0.3) 0 0 3 "driving" .timeout
    emptyOsrmCache emptySegCache "A → B" [stA, stB] (by simp [regAB]) (by simp)
    hslice
  refine ⟨?_, rfl, rfl, rfl, rfl⟩
  rw [h.1, hfilter]
  rfl

/-- C6: every SegmentProgress record the orchestrator produces has
progress_ratio clamped into [0,1], and the ratio is 0 whenever
total_distance_meters is not positive. -/
theorem C6_progress_ratio_clamped (registry : String → Option (String × List Station))
    (route_id : String) (loc : ℝ × ℝ) (now ts : ℝ) (max_stops : ℕ) (mode : String)
    (eng : RouteOutcome) (osrmC : OsrmCache) (segC : SegCache) (seg : SegmentProgress)
    (h : (get_upcoming_stops_eta registry route_id loc now ts max_stops mode eng
        osrmC segC).1.current_segment = some seg) :
    0 ≤ seg.progress_ratio ∧ seg.progress_ratio ≤ 1 ∧
    (seg.total_distance_meters ≤ 0 → seg.progress_ratio = 0) := by
  simp only [get_upcoming_stops_eta] at h
  repeat' split at h
  all_goals first
    | exact Option.noConfusion (show (none : Option SegmentProgress) = some seg from h)
    | (have h2 := Option.some.inj (show some _ = some seg from h)
       subst h2
       refine ⟨le_max_left 0 _, max_le zero_le_one (min_le_left _ _), fun htot => ?_⟩
       first
         | (exfalso; exact absurd htot (not_le.mpr (by assumption)))
         | (show max (0:ℝ) (min 1 0) = 0
            rw [min_eq_right (by norm_num : (0:ℝ) ≤ 1), max_self]))

/-- C6 witness: with route "r1" (A(0,0), B(0,1)), the vehicle at (0, 0.3) and
a successful 1200 m segment-distance exchange, the orchestrator produces a
SegmentProgress record, and its ratio obeys the clamp bounds. -/
theorem C6_progress_ratio_clamped_witness :
    (match (get_upcoming_stops_eta regAB "r1" (0, 0.3) 0 0 3 "driving"
        (.response 200 segRoutePayload) emptyOsrmCache emptySegCache).1.current_segment
      with
     | none => False
     | some seg => 0 ≤ seg.progress_ratio ∧ seg.progress_ratio ≤ 1 ∧
         (seg.total_distance_meters ≤ 0 → seg.progress_ratio = 0)) := by
  have hflat := pointToSegment_flat 0.3 0 1 (by norm_num)
  have hdist : (pointToSegmentDistance (0, 0.3) (0, 0) (0, 1)).1 = 0 := by
    rw [hflat]
    norm_num [min_def, max_def]
  have hoff : is_off_route (0, 0.3) [stA, stB] [stB] = false := by
    show decide (1000 < (pointToSegmentDistance (0, 0.3) (0, 0) (0, 1)).1) = false
    exact decide_eq_false (by rw [hdist]; norm_num)
  have hfilter : filter_upcoming_stops (0, 0.3) [stA, stB] = [stB] := rfl
  have hfind : find_current_segment (0, 0.3) [stA, stB] = 0 := rfl
  have h1200 : pyInt (1200 : ℝ) = 1200 := by
    unfold pyInt
    rw [if_pos (by norm_num)]
    rw [show (1200 : ℝ) = ((1200 : ℤ) : ℝ) by norm_num]
    exact Int.floor_intCast 1200
  have hsegd : (get_segment_distance "r1" ⟨"A", "Stop A", 0, 0⟩
      ⟨"B", "Stop B", 0, 1⟩ "driving"
      (.response 200 segRoutePayload) 0 emptyOsrmCache emptySegCache).distance =
      1200 := by
    simp [get_segment_distance, get_route, routeCacheLookup, emptyOsrmCache,
      emptySegCache, get_route_engine, segRoutePayload, h1200]
  have hx : (get_upcoming_stops_eta regAB "r1" (0, 0.3) 0 0 3 "driving"
      (.response 200 segRoutePayload) emptyOsrmCache emptySegCache).1.current_segment =
      some ⟨⟨"A", "Stop A", 0, 0⟩, ⟨"B", "Stop B", 0, 1⟩,
        (get_segment_distance "r1" stA stB "driving" (.response 200 segRoutePayload)
          0 emptyOsrmCache emptySegCache).distance,
        haversine_distance 0 0.3 0 1,
        max 0 (min 1 ((1200 - haversine_distance 0 0.3 0 1) / 1200))⟩ := by
    simp only [get_upcoming_stops_eta, regAB, if_true, List.isEmpty_cons,
      Bool.false_eq_true, if_false, calculate_etas, get_route_with_waypoints,
      hfilter, hoff, hfind]
    norm_num [stA, stB, failsafeStop, hsegd]
  rw [hx]
  exact C6_progress_ratio_clamped regAB "r1" (0, 0.3) 0 0 3 "driving"
    (.response 200 segRoutePayload) emptyOsrmCache emptySegCache _ hx

theorem ptsd_25_01 : (pointToSegmentDistance (0, 2.5) (0, 0) (0, 1)).1 =
    1.5 * (Real.pi / 180 * 6371000) := by
  rw [pointToSegment_flat 2.5 0 1 (by norm_num)]
  norm_num [min_def, max_def]

theorem ptsd_25_12 : (pointToSegmentDistance (0, 2.5) (0, 1) (0, 2)).1 =
    0.5 * (Real.pi / 180 * 6371000) := by
  rw [pointToSegment_flat 2.5 1 2 (by norm_num)]
  norm_num [min_def, max_def]

/-- Past the terminal stop C, the scan still picks the last segment (index 1
of A-B / B-C): the vehicle is strictly closer to B-C than to A-B. -/
theorem find_25 : find_current_segment (0, 2.5) [stA, stB, stC] = 1 := by
  show (scanArgmin [(pointToSegmentDistance (0, 2.5) (0, 0) (0, 1)).1,
    (pointToSegmentDistance (0, 2.5) (0, 1) (0, 2)).1] 0 (0, none)).1 = 1
  rw [ptsd_25_01, ptsd_25_12]
  simp only [scanArgmin]
  rw [if_pos (by nlinarith [Real.pi_pos])]

theorem filter_25 : filter_upcoming_stops (0, 2.5) [stA, stB, stC] = [stC] := by
  simp only [filter_upcoming_stops, find_25]
  norm_num

theorem off_25 : is_off_route (0, 2.5) [stA, stB, stC] [stC] = true := by
  show decide (1000 < (pointToSegmentDistance (0, 2.5) (0, 1) (0, 2)).1) = true
  exact decide_eq_true (by rw [ptsd_25_12]; nlinarith [Real.pi_gt_three])

/-- C3 counterexample: with stops A(0,0), B(0,1), C(0,2) and the vehicle at
(0, 2.5), past the terminal stop, filterUpcomingStops does NOT return the
empty list. -/
theorem C3_counterexample : filter_upcoming_stops (0, 2.5) [stA, stB, stC] ≠ [] := by
  rw [filter_25]
  simp

/-- C3 (amended): past the terminal stop, the full scan picks the last
segment, so filterUpcomingStops returns [C] (never [] on a multi-stop route);
an ETA entry is still computed for C (the failsafe entry, since the live path
is unreachable); isOffRoute returns true and the orchestrator reports
off_route = true with no current segment. -/
theorem C3_past_terminal :
    filter_upcoming_stops (0, 2.5) [stA, stB, stC] = [stC] ∧
    is_off_route (0, 2.5) [stA, stB, stC] [stC] = true ∧
    (get_upcoming_stops_eta regABC "r3" (0, 2.5) 0 0 3 "driving" .timeout
        emptyOsrmCache emptySegCache).1.upcoming_stops = [failsafeStop stC] ∧
    (get_upcoming_stops_eta regABC "r3" (0, 2.5) 0 0 3 "driving" .timeout
        emptyOsrmCache emptySegCache).1.off_route = true ∧
    (get_upcoming_stops_eta regABC "r3" (0, 2.5) 0 0 3 "driving" .timeout
        emptyOsrmCache emptySegCache).1.current_segment = none := by
  refine ⟨filter_25, off_25, ?_⟩
  have hres : (get_upcoming_stops_eta regABC "r3" (0, 2.5) 0 0 3 "driving" .timeout
      emptyOsrmCache emptySegCache).1 =
      ⟨"r3", "A → C", none, [failsafeStop stC], true, decide ((60:ℝ) < 0 - 0),
        none⟩ := by
    simp only [get_upcoming_stops_eta, regABC, if_true, List.isEmpty_cons,
      Bool.false_eq_true, if_false, calculate_etas, get_route_with_waypoints,
      filter_25, off_25]
    norm_num
  rw [hres]
  exact ⟨rfl, rfl, rfl⟩
